import Mathlib

set_option maxHeartbeats 1000000

namespace Prom

/-- Python numbers as produced and consumed by the exporter's query and
format functions: an `int` or a `float` (floats are modelled exactly as
rationals; every float the repository's formatters produce has a short
exact decimal expansion). -/
inductive PyNum where
  | int : Int → PyNum
  | float : Rat → PyNum
deriving Repr, DecidableEq

/-- The rational value of a Python number. -/
def PyNum.toRat : PyNum → Rat
  | .int n => (n : Rat)
  | .float q => q

/-- Division of rationals written with `Rat.divInt` so that the kernel
can evaluate it (`ratDiv a b = a / b`, proved below). -/
def ratDiv (a b : Rat) : Rat := Rat.divInt (a.num * b.den) (a.den * b.num)

/-- Python true division `a / b` on numbers: always yields a float.
The format lambdas in the source (`lambda x: x/100`) only divide by the
nonzero literal 100; the fallible division inside `DiskRequestSizer` is
modelled separately with an explicit ZeroDivisionError. -/
def PyNum.div (a b : PyNum) : PyNum := .float (ratDiv a.toRat b.toRat)

/-- Least number of decimal digits (capped at 17, the float repr bound)
rendering the rational exactly: the least `k` with `q.den ∣ 10^k`. -/
def decExp (q : Rat) : Nat :=
  ((List.range 18).find? (fun k => (10:Nat)^k % q.den = 0)).getD 17

/-- Decimal rendering of a Python float: sign, integer part, a decimal
point and at least one fractional digit, matching CPython `str()` on
floats with a short exact decimal expansion (e.g. `0.1`, `0.05`, `50.0`). -/
def ratDecStr (q : Rat) : String :=
  let sgn := if q.num < 0 then "-" else ""
  let k := max (decExp q) 1
  let n := q.num.natAbs * (10:Nat)^k / q.den
  let ds := (toString n).data
  let ds := List.replicate (k + 1 - ds.length) '0' ++ ds
  sgn ++ String.mk (ds.take (ds.length - k)) ++ "." ++ String.mk (ds.drop (ds.length - k))

/-- Python `str()` of a number, as used by `"{} {}".format` in `_tostr`. -/
def PyNum.str : PyNum → String
  | .int n => toString n
  | .float q => ratDecStr q

/-- The nested values returned by query functions: a scalar number, a
Python list (`Sequence`), or an ordered mapping (`Record`, covering both
dicts in insertion order and namedtuples in field order — `_tostr`
treats `_fields` objects and dicts identically, keyed iteration). -/
inductive MetricValue where
  | scalar : PyNum → MetricValue
  | seq : List MetricValue → MetricValue
  | record : List (String × MetricValue) → MetricValue

/-- One exposition data line, from `_tostr_inner`'s terminal branch:
`"{}{{{}}} {}".format(name, ",".join(parts), val)` when `parts` is
non-empty, `"{} {}".format(name, val)` when it is empty. -/
def renderLine (name : String) (parts : List String) (v : String) : String :=
  if parts = [] then name ++ " " ++ v
  else name ++ "\x7b" ++ String.intercalate "," parts ++ "\x7d " ++ v

mutual
/-- `_tostr_inner(parts, val, axes)` from `psutil_prometheus.py` lines
17-36: lists and keyed objects recurse one label deeper (consuming
`axes[0]`, which raises IndexError when `axes` is empty and the
composite is non-empty); anything else is a scalar, formatted with the
descriptor's `fmt` and rendered as one line. Errors propagate as Python
exceptions do. -/
def _tostr_inner (name : String) (fmt : PyNum → PyNum) (parts : List String) :
    MetricValue → List String → Except String (List String)
  | .scalar v, _axes => .ok [renderLine name parts (PyNum.str (fmt v))]
  | .seq items, axes => tostrSeq name fmt parts 0 items axes
  | .record fs, axes => tostrRec name fmt parts fs axes

/-- The `enumerate(val)` loop of `_tostr_inner` for lists: element `i`
contributes label `axes[0]="i"`. -/
def tostrSeq (name : String) (fmt : PyNum → PyNum) (parts : List String)
    (i : Nat) : List MetricValue → List String → Except String (List String)
  | [], _axes => .ok []
  | v :: vs, axes =>
    match axes with
    | [] => .error "IndexError: list index out of range"
    | a :: rest =>
      match _tostr_inner name fmt (parts ++ [a ++ "=\"" ++ toString i ++ "\""]) v rest with
      | .error e => .error e
      | .ok first =>
        match tostrSeq name fmt parts (i + 1) vs axes with
        | .error e => .error e
        | .ok more => .ok (first ++ more)

/-- The keyed loop of `_tostr_inner` for namedtuples (`val._fields`) and
dicts: key `k` contributes label `axes[0]="k"`. -/
def tostrRec (name : String) (fmt : PyNum → PyNum) (parts : List String) :
    List (String × MetricValue) → List String → Except String (List String)
  | [], _axes => .ok []
  | (k, v) :: fs, axes =>
    match axes with
    | [] => .error "IndexError: list index out of range"
    | a :: rest =>
      match _tostr_inner name fmt (parts ++ [a ++ "=\"" ++ k ++ "\""]) v rest with
      | .error e => .error e
      | .ok first =>
        match tostrRec name fmt parts fs axes with
        | .error e => .error e
        | .ok more => .ok (first ++ more)
end

/-- `_tostr(data, name, labels, fmt=...)`: entry point of the flattener
(line 37), starting from an empty label list. -/
def _tostr (data : MetricValue) (name : String) (labels : List String)
    (fmt : PyNum → PyNum) : Except String (List String) :=
  _tostr_inner name fmt [] data labels

/-- A metric descriptor, `Metric.__init__` (lines 45-57): name, help
text, declared label axes, exposition type, unit, format function, and
the query function.  A query call is modelled by its outcome for the
request at hand: a value, or the exception it raised. -/
structure Metric where
  name : String
  help : String
  labels : List String
  typ : String
  query : Except String MetricValue
  unit : Option String
  fmt : PyNum → PyNum

/-- The comment header `Metric.get` emits before the data lines:
HELP, TYPE, and—when a unit is set—UNIT. -/
def headerLines (m : Metric) : List String :=
  ["# HELP " ++ m.name ++ " " ++ m.help, "# TYPE " ++ m.name ++ " " ++ m.typ]
    ++ (match m.unit with
        | some u => ["# UNIT " ++ m.name ++ " " ++ u]
        | none => [])

/-- `Metric.get` (lines 65-71): header lines followed by
`_tostr(self.query(), self.name, self.labels, fmt=self.fmt)`.  There is
no `try` around the query call: an exception from `query()` (or an
IndexError from `_tostr`) propagates out of `get`. -/
def Metric.get (m : Metric) : Except String (List String) :=
  match m.query with
  | .error e => .error e
  | .ok data =>
    match _tostr data m.name m.labels m.fmt with
    | .error e => .error e
    | .ok dataLines => .ok (headerLines m ++ dataLines)

/-- `Metric.register` (lines 73-75): `ALL_METRICS.append(self)`, with no
duplicate-name check of any kind. -/
def Metric.register (m : Metric) (allMetrics : List Metric) : List Metric :=
  allMetrics ++ [m]

/-- The body the HTTP handler writes (`do_GET`, lines 404-411): for each
metric in registration order, `"\n".join(m.get())` followed by a single
`"\n"`.  The result is the text written before the loop finishes or an
exception escapes: an exception from some `m.get()` aborts the loop (the
handler has no try/except), so metrics after the failing one are never
rendered.  Returns (bytes written, exception if one escaped). -/
def do_GET_body : List Metric → String × Option String
  | [] => ("", none)
  | m :: rest =>
    match m.get with
    | .error e => ("", some e)
    | .ok lines =>
      let r := do_GET_body rest
      (String.intercalate "\n" lines ++ "\n" ++ r.1, r.2)

/-- Class-level state of `SensorMetric` (lines 195-198): whether
`sensors.init()` was attempted, whether it succeeded (Python `None`
before the attempt, hence an `Option`), and the reference count. -/
structure SensorState where
  _initAttempted : Bool
  _initSuccess : Option Bool
  _initCount : Int
deriving Repr, DecidableEq

/-- `SensorMetric.__enter__` (lines 203-215): attempt `sensors.init()`
once (`ok` is that call's outcome), memoize the result, and increment
the refcount only when the memoized attempt succeeded.  Returns the new
state and how many times `sensors.init()` was called. -/
def sensorEnter (ok : Bool) (s : SensorState) : SensorState × Nat :=
  if s._initAttempted then
    if s._initSuccess = some true then
      ({ s with _initCount := s._initCount + 1 }, 0)
    else (s, 0)
  else
    let s := { s with _initAttempted := true, _initSuccess := some ok }
    if s._initSuccess = some true then
      ({ s with _initCount := s._initCount + 1 }, 1)
    else (s, 1)

/-- `SensorMetric.__exit__` (lines 217-224): when init succeeded,
decrement the refcount and call `sensors.cleanup()` exactly when it
reaches zero.  Returns the new state and how many times
`sensors.cleanup()` was called. -/
def sensorExit (s : SensorState) : SensorState × Nat :=
  if s._initSuccess = some true then
    let s := { s with _initCount := s._initCount - 1 }
    if s._initCount = 0 then (s, 1) else (s, 0)
  else (s, 0)

/-- `SensorMetric.get` (lines 226-230): the wrapped render when init
succeeded, otherwise a single warning line (the query function is not
touched in that branch). -/
def SensorMetric.get (m : Metric) (s : SensorState) : Except String (List String) :=
  if s._initSuccess = some true then Metric.get m
  else .ok ["# WARNING `" ++ m.name ++ "` not available; Error when loading lm-sensors"]

/-- Class-level state of `GPUMetric` (lines 266-267). -/
structure GPUState where
  _NVMLInitAttempted : Bool
  _NVMLInitSuccess : Bool
deriving Repr, DecidableEq

/-- `GPUMetric.__enter__` (lines 272-282): attempt `nvmlInit()` once
(`ok` is its outcome) and memoize.  No reference count exists.  Returns
the new state and how many times `nvmlInit()` was called. -/
def gpuEnter (ok : Bool) (s : GPUState) : GPUState × Nat :=
  if s._NVMLInitAttempted then (s, 0)
  else ({ _NVMLInitAttempted := true, _NVMLInitSuccess := ok }, 1)

/-- `GPUMetric.__exit__` (lines 284-287): call `nvmlShutdown()` whenever
init succeeded — on every exit, unconditionally; there is no reference
count.  Returns the new state and how many times `nvmlShutdown()` was
called. -/
def gpuExit (s : GPUState) : GPUState × Nat :=
  if s._NVMLInitSuccess then (s, 1) else (s, 0)

/-- `GPUMetric.get` (lines 289-293): the wrapped render when NVML
loaded, otherwise a single warning line. -/
def GPUMetric.get (m : Metric) (s : GPUState) : Except String (List String) :=
  if s._NVMLInitSuccess then Metric.get m
  else .ok ["# WARNING `" ++ m.name ++ "` not available; NVML not found."]

/-- Local names of `GPUMeta.__call__` (lines 305-315): the parameter
`self` and the loop variables of the init block (`i`, `handle`, `id`).
The dict comprehension's iterable is evaluated in this enclosing
function scope. -/
def gpuMetaCallLocals : List String := ["self", "i", "handle", "id"]

/-- Names bound at module top level of `psutil_prometheus.py` (imports,
constants, functions and classes), other than the names brought in by
`from py3nvml.py3nvml import *`, which are passed separately. -/
def moduleGlobals : List String :=
  ["http", "os", "threading", "time", "contextlib", "sensors", "psutil",
   "PORT", "_tostr", "ALL_METRICS", "not_implemented", "Metric", "uptime",
   "cpu", "CPUMetric", "virtual_memory", "disk_meta", "disk_usage",
   "RunningDelta", "DiskRequestSizer", "disk_req_size", "disk_time",
   "netio", "SensorMetric", "sanitizeName", "coretemp", "GPUMetric",
   "GPUMeta", "gpu_mem", "gpu_util", "gpu_temp", "gpu_power", "gpu_clocks",
   "THROTTLE_REASONS", "gpu_throttle", "StatsPrintHandler", "metrics", "httpd"]

/-- The CPython builtin names (python 3.x `dir(builtins)` minus
dunders), the last scope a name lookup falls back to. -/
def pyBuiltins : List String :=
  ["ArithmeticError", "AssertionError", "AttributeError", "BaseException",
   "BlockingIOError", "BrokenPipeError", "BufferError", "BytesWarning",
   "ChildProcessError", "ConnectionAbortedError", "ConnectionError",
   "ConnectionRefusedError", "ConnectionResetError", "DeprecationWarning",
   "EOFError", "Ellipsis", "EnvironmentError", "Exception", "False",
   "FileExistsError", "FileNotFoundError", "FloatingPointError",
   "FutureWarning", "GeneratorExit", "IOError", "ImportError",
   "ImportWarning", "IndentationError", "IndexError", "InterruptedError",
   "IsADirectoryError", "KeyError", "KeyboardInterrupt", "LookupError",
   "MemoryError", "ModuleNotFoundError", "NameError", "None",
   "NotADirectoryError", "NotImplemented", "NotImplementedError",
   "OSError", "OverflowError", "PendingDeprecationWarning",
   "PermissionError", "ProcessLookupError", "RecursionError",
   "ReferenceError", "ResourceWarning", "RuntimeError", "RuntimeWarning",
   "StopAsyncIteration", "StopIteration", "SyntaxError", "SyntaxWarning",
   "SystemError", "SystemExit", "TabError", "TimeoutError", "True",
   "TypeError", "UnboundLocalError", "UnicodeDecodeError",
   "UnicodeEncodeError", "UnicodeError", "UnicodeTranslateError",
   "UnicodeWarning", "UserWarning", "ValueError", "Warning",
   "ZeroDivisionError", "abs", "all", "any", "ascii", "bin", "bool",
   "breakpoint", "bytearray", "bytes", "callable", "chr", "classmethod",
   "compile", "complex", "copyright", "credits", "delattr", "dict", "dir",
   "divmod", "enumerate", "eval", "exec", "exit", "filter", "float",
   "format", "frozenset", "getattr", "globals", "hasattr", "hash", "help",
   "hex", "id", "input", "int", "isinstance", "issubclass", "iter", "len",
   "license", "list", "locals", "map", "max", "memoryview", "min", "next",
   "object", "oct", "open", "ord", "pow", "print", "property", "quit",
   "range", "repr", "reversed", "round", "set", "setattr", "slice",
   "sorted", "staticmethod", "str", "sum", "super", "tuple", "type",
   "vars", "zip"]

/-- Python name resolution as seen from inside `GPUMeta.__call__`:
locals, then module globals (including whatever the star import bound),
then builtins. -/
def nameInScope (starImports : List String) (n : String) : Bool :=
  gpuMetaCallLocals.contains n || moduleGlobals.contains n
    || starImports.contains n || pyBuiltins.contains n

/-- Class-level state of `GPUMeta` (lines 299-300): the memoized device
handle cache.  Handles are opaque; we use `Nat`. -/
structure GPUMetaState where
  _init : Bool
  _id_handles : List (String × Nat)

/-- `GPUMeta.__call__` (lines 305-315).  On first call it fills the
`(uuid, handle)` cache from NVML device enumeration (`devices` is what
that enumeration yields).  Then it evaluates
`{id: self.fn(h) for id, h in handles}` inside a bare `try`.  The name
`handles` is free: it is not a local of `__call__`, not bound at module
top level (the cache is `self._id_handles`), not exported by
`py3nvml.py3nvml` (whose exports are the `nvml*`/`NVML*`/`c_nvml*`
families), and not a builtin — so CPython raises `NameError`, the bare
`except` catches it, and the call returns the empty list `[]`. -/
def GPUMeta_call (starImports : List String) (fn : Nat → MetricValue)
    (st : GPUMetaState) (devices : List (String × Nat)) : GPUMetaState × MetricValue :=
  let st := if st._init then st
            else { _init := true, _id_handles := st._id_handles ++ devices }
  if nameInScope starImports "handles" then
    -- dead branch: what the comprehension would build if `handles` held the cache
    (st, .record (st._id_handles.map (fun p => (p.1, fn p.2))))
  else
    (st, .seq [])

/-- `RunningDelta` (lines 145-151): `prev` starts at 0; each call
returns `x - prev` and stores `x`. -/
structure RunningDelta where
  prev : Int
deriving Repr, DecidableEq

/-- `RunningDelta.__call__`. -/
def RunningDelta.call (d : RunningDelta) (x : Int) : RunningDelta × Int :=
  ({ prev := x }, x - d.prev)

/-- The four counter fields of one `psutil` per-disk io-counters entry
that `DiskRequestSizer.__call__` reads. -/
structure DiskIOCount where
  read_bytes : Int
  read_count : Int
  write_bytes : Int
  write_count : Int
deriving Repr, DecidableEq

/-- `DiskRequestSizer.__init__` (lines 153-158): four independent
running deltas. -/
structure DiskRequestSizer where
  rbD : RunningDelta
  rcD : RunningDelta
  wbD : RunningDelta
  wcD : RunningDelta
deriving Repr, DecidableEq

/-- Python `/` on two ints inside `DiskRequestSizer`: raises
ZeroDivisionError on a zero divisor, otherwise a float. -/
def pyDiv (a b : Int) : Except String Rat :=
  if b = 0 then .error "ZeroDivisionError: division by zero"
  else .ok (Rat.divInt a b)

/-- `DiskRequestSizer.__call__` (lines 160-172): update all four deltas,
then emit `read = rb/rc` when `rc > 0` and `write = wb/wc` — also gated
on `rc > 0` (the source reuses the read-count delta's sign for the write
ratio).  The delta state is mutated even when the division raises. -/
def DiskRequestSizer.call (s : DiskRequestSizer) (c : DiskIOCount) :
    DiskRequestSizer × Except String (List (String × Rat)) :=
  let (rbD, rb) := s.rbD.call c.read_bytes
  let (rcD, rc) := s.rcD.call c.read_count
  let (wbD, wb) := s.wbD.call c.write_bytes
  let (wcD, wc) := s.wcD.call c.write_count
  let rv : Except String (List (String × Rat)) :=
    match (if rc > 0 then (pyDiv rb rc).map (fun q => [("read", q)]) else .ok []) with
    | .error e => .error e
    | .ok rv1 =>
      match (if rc > 0 then (pyDiv wb wc).map (fun q => [("write", q)]) else .ok []) with
      | .error e => .error e
      | .ok rv2 => .ok (rv1 ++ rv2)
  (⟨rbD, rcD, wbD, wcD⟩, rv)

mutual
/-- Depth (number of enclosing Sequence/Record levels) at which each
scalar of a value sits, in the flattener's traversal order. -/
def scalarDepths : MetricValue → List Nat
  | .scalar _ => [0]
  | .seq items => (scalarDepthsList items).map (fun d => d + 1)
  | .record fs => (scalarDepthsRec fs).map (fun d => d + 1)

/-- `scalarDepths` over the elements of a Sequence. -/
def scalarDepthsList : List MetricValue → List Nat
  | [] => []
  | v :: vs => scalarDepths v ++ scalarDepthsList vs

/-- `scalarDepths` over the fields of a Record. -/
def scalarDepthsRec : List (String × MetricValue) → List Nat
  | [] => []
  | (_, v) :: fs => scalarDepths v ++ scalarDepthsRec fs
end

/-- Whether a string contains two consecutive newline characters, i.e. a
blank-line separator. -/
def hasBlankSep (s : String) : Bool :=
  (s.data.zip s.data.tail).contains ('\n', '\n')

/-- Sample descriptor whose query raises, as the default
`not_implemented` query of line 42-43 does. -/
def mFailing : Metric :=
  { name := "load", help := "one-minute load", labels := [], typ := "gauge",
    query := .error "RuntimeError: Not Implemented!", unit := none, fmt := id }

/-- Sample healthy descriptor in the style of the `uptime` registration. -/
def mHealthy : Metric :=
  { name := "uptime", help := "time since last boot", labels := [], typ := "gauge",
    query := .ok (.scalar (.int 5)), unit := some "seconds", fmt := id }

/-- Sample descriptor named `dup`, first of two sharing a name. -/
def dupA : Metric :=
  { name := "dup", help := "first", labels := [], typ := "gauge",
    query := .ok (.scalar (.int 0)), unit := none, fmt := id }

/-- Sample descriptor with the same name `dup` as `dupA`. -/
def dupB : Metric :=
  { name := "dup", help := "second", labels := [], typ := "gauge",
    query := .ok (.scalar (.int 1)), unit := none, fmt := id }

/-- Small healthy descriptor for the exposition-writer scenario. -/
def mOne : Metric :=
  { name := "m1", help := "h1", labels := [], typ := "gauge",
    query := .ok (.scalar (.int 1)), unit := none, fmt := id }

/-- Second small healthy descriptor for the exposition-writer scenario. -/
def mTwo : Metric :=
  { name := "m2", help := "h2", labels := [], typ := "gauge",
    query := .ok (.scalar (.int 2)), unit := none, fmt := id }

/-- A freshly constructed `DiskRequestSizer()`: all four deltas at 0. -/
def dsrFresh : DiskRequestSizer := ⟨⟨0⟩, ⟨0⟩, ⟨0⟩, ⟨0⟩⟩

/-- Shape property of `_tostr_inner`: every successfully rendered line
comes from a (labels, scalar) pair whose label count is the depth of
that scalar below the current node (offset by the labels already
accumulated in `parts`) and is bounded by the remaining axes. -/
def TostrShapeP (name : String) (fmt : PyNum → PyNum) (val : MetricValue) : Prop :=
  ∀ (parts axes lines : List String),
    _tostr_inner name fmt parts val axes = Except.ok lines →
    ∃ pairs : List (List String × String),
      lines = pairs.map (fun p => renderLine name p.1 p.2) ∧
      pairs.map (fun p => p.1.length) = (scalarDepths val).map (fun d => d + parts.length) ∧
      ∀ p ∈ pairs, p.1.length ≤ parts.length + axes.length

/-- `ratDiv` is ordinary division of rationals. -/
theorem ratDiv_eq_div (a b : Rat) : ratDiv a b = a / b := by
  rw [ratDiv, Rat.divInt_eq_div]
  rcases eq_or_ne b 0 with rb | rb
  · subst rb; simp
  · have hbn : (b.num : Rat) ≠ 0 := by
      exact_mod_cast Rat.num_ne_zero.mpr rb
    have had : (a.den : Rat) ≠ 0 := by
      exact_mod_cast a.den_nz
    have hbd : (b.den : Rat) ≠ 0 := by
      exact_mod_cast b.den_nz
    conv_rhs => rw [← Rat.num_div_den a, ← Rat.num_div_den b]
    push_cast
    field_simp

/-- C1 counterexample: the first registered descriptor's query raises,
and the response contains no warning line and no lines at all — the
exception escapes `Metric.get` (which has no try/except around
`query()`) and aborts the whole render loop, so the healthy sibling
descriptor is never rendered either.  This refutes the claim that such
a failure yields one warning line while siblings render normally. -/
theorem c1_counterexample :
    do_GET_body [mFailing, mHealthy] = ("", some "RuntimeError: Not Implemented!") := by
  decide

/-- C1 amended: an error raised by a descriptor's query function
propagates out of `Metric.get` — no warning line and no data lines are
emitted for that descriptor — and aborts the render loop: descriptors
already rendered keep their output, descriptors after the failing one
are never rendered for that response. -/
theorem c1_amended (m : Metric) (e : String) (h : m.query = .error e) :
    Metric.get m = .error e ∧
    (∀ rest : List Metric, do_GET_body (m :: rest) = ("", some e)) ∧
    (∀ (m0 : Metric) (lines0 : List String) (rest : List Metric),
      m0.get = .ok lines0 →
      do_GET_body (m0 :: m :: rest) =
        (String.intercalate "\n" lines0 ++ "\n", some e)) := by
  have hget : Metric.get m = .error e := by
    simp [Metric.get, h]
  refine ⟨hget, ?_, ?_⟩
  · intro rest
    simp [do_GET_body, hget]
  · intro m0 lines0 rest h0
    simp [do_GET_body, h0, hget]

/-- C1 witness: the amended facts at a concrete failing descriptor and
a concrete healthy sibling. -/
theorem c1_witness :
    mFailing.query = .error "RuntimeError: Not Implemented!" ∧
    do_GET_body [mFailing, mHealthy] = ("", some "RuntimeError: Not Implemented!") ∧
    do_GET_body [mHealthy, mFailing] =
      ("# HELP uptime time since last boot\n# TYPE uptime gauge\n# UNIT uptime seconds\nuptime 5\n",
       some "RuntimeError: Not Implemented!") := by
  have hh : mHealthy.get =
      .ok ["# HELP uptime time since last boot", "# TYPE uptime gauge",
           "# UNIT uptime seconds", "uptime 5"] := by
    simp [mHealthy, Metric.get, headerLines, _tostr, _tostr_inner, renderLine, PyNum.str]
    decide
  refine ⟨rfl, ((c1_amended mFailing "RuntimeError: Not Implemented!" rfl).2.1 [mHealthy]), ?_⟩
  have h3 := (c1_amended mFailing "RuntimeError: Not Implemented!" rfl).2.2 mHealthy _ [] hh
  simpa using h3

/-- C2 counterexample: for the GPU backend kind, whose `nvmlInit()`
succeeded, the sequence `enter(); enter(); exit(); exit()` invokes
`nvmlShutdown()` on the first exit already and again on the second —
twice in total, not exactly once after the second exit.
`GPUMetric.__exit__` has no reference count. -/
theorem c2_counterexample :
    (gpuExit (gpuEnter true (gpuEnter true ⟨false, false⟩).1).1).2 = 1 ∧
    (gpuExit (gpuExit (gpuEnter true (gpuEnter true ⟨false, false⟩).1).1).1).2 = 1 := by
  decide

/-- C2 amended: the exactly-once-teardown property holds for the
sensors backend (`SensorMetric` reference-counts: `enter();enter();
exit();exit()` after a successful init calls `sensors.init()` once and
`sensors.cleanup()` exactly once, on the second exit), but not for the
GPU backend: `GPUMetric.__exit__` calls `nvmlShutdown()` on every exit
while initialized, so the same sequence tears NVML down twice,
beginning at the first exit. -/
theorem c2_amended :
    (let s0 : SensorState := ⟨false, none, 0⟩
     let e1 := sensorEnter true s0
     let e2 := sensorEnter true e1.1
     let x1 := sensorExit e2.1
     let x2 := sensorExit x1.1
     e1.2 = 1 ∧ e2.2 = 0 ∧ x1.2 = 0 ∧ x2.2 = 1 ∧ x2.1._initCount = 0) ∧
    (let g0 : GPUState := ⟨false, false⟩
     let f1 := gpuEnter true g0
     let f2 := gpuEnter true f1.1
     let y1 := gpuExit f2.1
     let y2 := gpuExit y1.1
     f1.2 = 1 ∧ f2.2 = 0 ∧ y1.2 = 1 ∧ y2.2 = 1) := by
  decide

/-- C5: for a descriptor bound to a backend whose memoized
initialization failed, rendering returns (never raises) a single
warning line naming the metric, the result does not depend on the
wrapped query function at all, entering the scope is a no-op (state
unchanged, no further init attempt), and exiting never invokes
teardown — for both the sensors and the GPU backend. -/
theorem c5_failed_backend (m : Metric) (ss : SensorState) (gs : GPUState) (ok : Bool)
    (hsa : ss._initAttempted = true) (hsf : ss._initSuccess = some false)
    (hga : gs._NVMLInitAttempted = true) (hgf : gs._NVMLInitSuccess = false) :
    SensorMetric.get m ss =
      .ok ["# WARNING `" ++ m.name ++ "` not available; Error when loading lm-sensors"] ∧
    (∀ q : Except String MetricValue,
      SensorMetric.get { m with query := q } ss = SensorMetric.get m ss) ∧
    sensorEnter ok ss = (ss, 0) ∧
    sensorExit ss = (ss, 0) ∧
    GPUMetric.get m gs =
      .ok ["# WARNING `" ++ m.name ++ "` not available; NVML not found."] ∧
    (∀ q : Except String MetricValue,
      GPUMetric.get { m with query := q } gs = GPUMetric.get m gs) ∧
    gpuEnter ok gs = (gs, 0) ∧
    gpuExit gs = (gs, 0) := by
  refine ⟨?_, ?_, ?_, ?_, ?_, ?_, ?_, ?_⟩
  · simp [SensorMetric.get, hsf]
  · intro q; simp [SensorMetric.get, hsf]
  · simp [sensorEnter, hsa, hsf]
  · simp [sensorExit, hsf]
  · simp [GPUMetric.get, hgf]
  · intro q; simp [GPUMetric.get, hgf]
  · simp [gpuEnter, hga]
  · simp [gpuExit, hgf]

/-- C5 witness: the failed-backend behavior at concrete states and a
concrete descriptor. -/
theorem c5_witness :
    (⟨true, some false, 0⟩ : SensorState)._initSuccess = some false ∧
    SensorMetric.get mHealthy ⟨true, some false, 0⟩ =
      .ok ["# WARNING `" ++ mHealthy.name ++ "` not available; Error when loading lm-sensors"] ∧
    gpuExit ⟨true, false⟩ = (⟨true, false⟩, 0) :=
  ⟨rfl,
   (c5_failed_backend mHealthy ⟨true, some false, 0⟩ ⟨true, false⟩ true rfl rfl rfl rfl).1,
   (c5_failed_backend mHealthy ⟨true, some false, 0⟩ ⟨true, false⟩ true rfl rfl rfl rfl).2.2.2.2.2.2.2⟩

/-- C6: the spec's concrete scenario does hold — fed the same
`(bytes = [0,100,100], count = [0,2,2])` series on both directions, the
polls yield `{}`, `{read: 50, write: 50}`, `{}` with no division by
zero — but the universal part of the claim is false in the code:
`DiskRequestSizer.__call__` gates the *write* ratio on the *read*-count
delta (`if rc > 0` twice, a copy-paste slip the code's intent
contradicts), so at the failing input below (read-count delta 1,
write-count delta 0) it evaluates `wb/wc` with `wc = 0` and raises
ZeroDivisionError. -/
theorem c6_write_gate_bug :
    (let r1 := dsrFresh.call ⟨0, 0, 0, 0⟩
     let r2 := r1.1.call ⟨100, 2, 100, 2⟩
     let r3 := r2.1.call ⟨100, 2, 100, 2⟩
     r1.2 = .ok [] ∧
     r2.2 = .ok [("read", 50), ("write", 50)] ∧
     r3.2 = .ok []) ∧
    (dsrFresh.call ⟨10, 1, 5, 0⟩).2 = .error "ZeroDivisionError: division by zero" := by
  exact ⟨⟨rfl, rfl, rfl⟩, rfl⟩

/-- C7 counterexample: registering a second descriptor with the name
`dup`, already present in the registry, is not rejected — `register`
appends unconditionally and the registry ends with two entries of the
same name. -/
theorem c7_counterexample :
    (Metric.register dupB (Metric.register dupA [])).map Metric.name = ["dup", "dup"] ∧
    (Metric.register dupB (Metric.register dupA [])).length = 2 := by
  constructor <;> rfl

/-- C7 amended: registration never rejects anything: even when the new
descriptor's name is already present, `register` appends it, so the
duplicate name's multiplicity grows by one and every previous entry is
kept.  (Registration — `ALL_METRICS.append` — is indeed the only
operation in the module that modifies the registry; the render path
only reads it.) -/
theorem c7_amended (r : List Metric) (m : Metric)
    (h : ∃ mPrev ∈ r, mPrev.name = m.name) :
    Metric.register m r = r ++ [m] ∧
    ((Metric.register m r).map Metric.name).count m.name =
      (r.map Metric.name).count m.name + 1 := by
  refine ⟨rfl, ?_⟩
  simp [Metric.register]

/-- C7 witness: the amended statement at the concrete duplicate pair. -/
theorem c7_witness :
    Metric.register dupB [dupA] = [dupA, dupB] ∧
    ((Metric.register dupB [dupA]).map Metric.name).count dupB.name =
      ([dupA].map Metric.name).count dupB.name + 1 :=
  c7_amended [dupA] dupB ⟨dupA, by simp, rfl⟩

/-- C8 counterexample: an *empty* Sequence or Record whose axes are
exhausted does not fail at all — flattening returns zero lines
successfully; and when a non-empty composite exhausts the axes the
error is a plain IndexError that names neither `MalformedMetricShape`
nor the descriptor.  This refutes the claim that every
Sequence/Record-with-exhausted-axes fails fast with a
`MalformedMetricShape` error naming the descriptor. -/
theorem c8_counterexample :
    _tostr (.seq []) "m" [] id = .ok [] ∧
    _tostr (.record []) "m" [] id = .ok [] ∧
    _tostr (.seq [.scalar (.int 1)]) "m" [] id =
      .error "IndexError: list index out of range" ∧
    _tostr (.record [("a", .scalar (.int 1))]) "m" [] id =
      .error "IndexError: list index out of range" := by
  refine ⟨?_, ?_, ?_, ?_⟩ <;>
    simp [_tostr, _tostr_inner, tostrSeq, tostrRec]

/-- C8 amended: with axes exhausted, a non-empty Sequence or Record
makes the flattener raise an uncaught IndexError (`axes[0]` on an empty
list) that mentions neither a `MalformedMetricShape` condition nor the
descriptor's name, while an empty Sequence or Record silently yields
zero lines; in neither case is a composite stringified into a data
line. -/
theorem c8_amended (name : String) (fmt : PyNum → PyNum)
    (items : List MetricValue) (fs : List (String × MetricValue))
    (hItems : items ≠ []) (hFs : fs ≠ []) :
    _tostr (.seq items) name [] fmt = .error "IndexError: list index out of range" ∧
    _tostr (.record fs) name [] fmt = .error "IndexError: list index out of range" ∧
    _tostr (.seq []) name [] fmt = .ok [] ∧
    _tostr (.record []) name [] fmt = .ok [] := by
  refine ⟨?_, ?_, ?_, ?_⟩
  · match items, hItems with
    | v :: vs, _ => simp [_tostr, _tostr_inner, tostrSeq]
  · match fs, hFs with
    | (k, v) :: fs, _ => simp [_tostr, _tostr_inner, tostrRec]
  · simp [_tostr, _tostr_inner, tostrSeq]
  · simp [_tostr, _tostr_inner, tostrRec]

/-- C8 witness: the amended statement at concrete one-element
composites. -/
theorem c8_witness :
    _tostr (.seq [.scalar (.int 7)]) "w" [] id =
      .error "IndexError: list index out of range" ∧
    _tostr (.record [("x", .scalar (.int 7))]) "w" [] id =
      .error "IndexError: list index out of range" :=
  ⟨(c8_amended "w" id [.scalar (.int 7)] [("x", .scalar (.int 7))]
      (by simp) (by simp)).1,
   (c8_amended "w" id [.scalar (.int 7)] [("x", .scalar (.int 7))]
      (by simp) (by simp)).2.1⟩

/-- C9: the two end-to-end flattening scenarios hold exactly: the
Record under axis `type` with format `x/100`, in declared field order,
and the Sequence of Records under axes `id`,`field`. -/
theorem c9_scenarios :
    _tostr (.record [("user", .scalar (.int 10)), ("system", .scalar (.int 5))])
        "cpu" ["type"] (fun x => x.div (.int 100)) =
      .ok ["cpu\x7btype=\"user\"\x7d 0.1", "cpu\x7btype=\"system\"\x7d 0.05"] ∧
    _tostr (.seq [.record [("a", .scalar (.int 1))], .record [("a", .scalar (.int 2))]])
        "m" ["id", "field"] id =
      .ok ["m\x7bid=\"0\",field=\"a\"\x7d 1", "m\x7bid=\"1\",field=\"a\"\x7d 2"] := by
  constructor <;>
    (simp [_tostr, _tostr_inner, tostrRec, tostrSeq, renderLine, PyNum.str, PyNum.div,
       PyNum.toRat, ratDecStr, decExp, ratDiv]
     decide)

/-- C10 counterexample: two healthy descriptors render in order but
their blocks are separated by a single newline (each block is joined
with newlines and terminated by one `"\n"`), not by a blank line: the
rendered body contains no two consecutive newlines anywhere. -/
theorem c10_counterexample :
    do_GET_body [mOne, mTwo] =
      ("# HELP m1 h1\n# TYPE m1 gauge\nm1 1\n# HELP m2 h2\n# TYPE m2 gauge\nm2 2\n",
       none) ∧
    hasBlankSep (do_GET_body [mOne, mTwo]).1 = false := by
  have h1 : mOne.get = .ok ["# HELP m1 h1", "# TYPE m1 gauge", "m1 1"] := by
    simp [mOne, Metric.get, headerLines, _tostr, _tostr_inner, renderLine, PyNum.str]
    decide
  have h2 : mTwo.get = .ok ["# HELP m2 h2", "# TYPE m2 gauge", "m2 2"] := by
    simp [mTwo, Metric.get, headerLines, _tostr, _tostr_inner, renderLine, PyNum.str]
    decide
  have hbody : do_GET_body [mOne, mTwo] =
      ("# HELP m1 h1\n# TYPE m1 gauge\nm1 1\n# HELP m2 h2\n# TYPE m2 gauge\nm2 2\n",
       none) := by
    simp [do_GET_body, h1, h2]
    decide
  exact ⟨hbody, by rw [hbody]; decide⟩

/-- C10 amended: the writer renders all registered descriptors in
registration order; each descriptor's lines are joined with single
newlines and its block is terminated by exactly one newline, after
which the next descriptor's block follows immediately — there is no
blank-line separator between consecutive blocks. -/
theorem c10_amended (m : Metric) (lines : List String) (rest : List Metric)
    (h : m.get = .ok lines) :
    do_GET_body (m :: rest) =
      (String.intercalate "\n" lines ++ "\n" ++ (do_GET_body rest).1,
       (do_GET_body rest).2) := by
  simp [do_GET_body, h]

/-- C10 witness: the amended block-concatenation fact at the concrete
two-descriptor registry. -/
theorem c10_witness :
    mOne.get = .ok ["# HELP m1 h1", "# TYPE m1 gauge", "m1 1"] ∧
    do_GET_body [mOne, mTwo] =
      (String.intercalate "\n" ["# HELP m1 h1", "# TYPE m1 gauge", "m1 1"] ++ "\n" ++
        (do_GET_body [mTwo]).1, (do_GET_body [mTwo]).2) := by
  have h1 : mOne.get = .ok ["# HELP m1 h1", "# TYPE m1 gauge", "m1 1"] := by
    simp [mOne, Metric.get, headerLines, _tostr, _tostr_inner, renderLine, PyNum.str]
    decide
  exact ⟨h1, c10_amended mOne _ [mTwo] h1⟩

/-- C3: whatever the state of the handle cache and whatever per-device
function is wrapped, `GPUMeta.__call__` returns the empty list — the
comprehension's iterable `handles` is an unbound name (not a local of
`__call__`, not a module global, not a `py3nvml` export, not a
builtin), the NameError is swallowed by the bare `except` — and hence
every GPU metric renders its header lines (or the NVML warning line)
and never a data line. -/
theorem c3_gpumeta_always_empty (starImports : List String)
    (hstar : starImports.contains "handles" = false) :
    ∀ (fn : Nat → MetricValue) (st : GPUMetaState) (devices : List (String × Nat)),
      (GPUMeta_call starImports fn st devices).2 = .seq [] ∧
      ∀ (name help typ : String) (unit : Option String) (labels : List String)
        (fmt : PyNum → PyNum) (gs : GPUState),
        GPUMetric.get
            ⟨name, help, labels, typ, .ok (GPUMeta_call starImports fn st devices).2,
             unit, fmt⟩ gs =
          .ok (if gs._NVMLInitSuccess then
                 headerLines ⟨name, help, labels, typ, .ok (.seq []), unit, fmt⟩
               else ["# WARNING `" ++ name ++ "` not available; NVML not found."]) := by
  have hscope : nameInScope starImports "handles" = false := by
    unfold nameInScope
    rw [hstar]
    decide
  intro fn st devices
  have hcall : (GPUMeta_call starImports fn st devices).2 = .seq [] := by
    simp [GPUMeta_call, hscope]
  refine ⟨hcall, ?_⟩
  intro name help typ unit labels fmt gs
  rw [hcall]
  by_cases hg : gs._NVMLInitSuccess
  · simp [GPUMetric.get, hg, Metric.get, _tostr, _tostr_inner, tostrSeq, headerLines]
  · simp [GPUMetric.get, hg]

/-- C3 witness: the empty result and header-only render at a concrete
star-import list, cache state, device list and metric shape. -/
theorem c3_witness :
    (["nvmlInit", "nvmlShutdown", "NVMLError_LibraryNotFound"] : List String).contains
      "handles" = false ∧
    (GPUMeta_call ["nvmlInit", "nvmlShutdown", "NVMLError_LibraryNotFound"]
      (fun _ => .scalar (.int 1)) ⟨false, []⟩ [("GPU-0", 0)]).2 = .seq [] :=
  ⟨by decide,
   (c3_gpumeta_always_empty _ (by decide) (fun _ => .scalar (.int 1)) ⟨false, []⟩
      [("GPU-0", 0)]).1⟩

/-- Shape of a successful `tostrSeq` run: concatenation of the shapes of
the elements, one label deeper than `parts`. -/
theorem tostrSeq_shape (name : String) (fmt : PyNum → PyNum) :
    ∀ (items : List MetricValue), (∀ v ∈ items, TostrShapeP name fmt v) →
    ∀ (i : Nat) (parts axes lines : List String),
      tostrSeq name fmt parts i items axes = Except.ok lines →
      ∃ pairs : List (List String × String),
        lines = pairs.map (fun p => renderLine name p.1 p.2) ∧
        pairs.map (fun p => p.1.length) =
          (scalarDepthsList items).map (fun d => d + (parts.length + 1)) ∧
        ∀ p ∈ pairs, p.1.length ≤ parts.length + axes.length := by
  intro items
  induction items with
  | nil =>
    intro _ i parts axes lines h
    simp only [tostrSeq] at h
    obtain rfl : ([] : List String) = lines := by
      simpa using h
    exact ⟨[], by simp, by simp [scalarDepthsList], by simp⟩
  | cons v vs ih =>
    intro hP i parts axes lines h
    match axes with
    | [] => simp [tostrSeq] at h
    | a :: rest =>
      simp only [tostrSeq] at h
      cases hv : _tostr_inner name fmt (parts ++ [a ++ "=\"" ++ toString i ++ "\""]) v rest with
      | error e => rw [hv] at h; simp at h
      | ok first =>
        rw [hv] at h
        cases hrest : tostrSeq name fmt parts (i + 1) vs (a :: rest) with
        | error e => rw [hrest] at h; simp at h
        | ok more =>
          rw [hrest] at h
          simp only [Except.ok.injEq] at h
          obtain ⟨p1, e1, d1, b1⟩ :=
            hP v (by simp) (parts ++ [a ++ "=\"" ++ toString i ++ "\""]) rest first hv
          obtain ⟨p2, e2, d2, b2⟩ :=
            ih (fun w hw => hP w (by simp [hw])) (i + 1) parts (a :: rest) more hrest
          refine ⟨p1 ++ p2, ?_, ?_, ?_⟩
          · rw [← h, e1, e2, List.map_append]
          · rw [List.map_append, d1, d2]
            simp only [scalarDepthsList, List.map_append]
            congr 1
            · congr 1
              funext d
              simp
          · intro p hp
            rcases List.mem_append.mp hp with h1 | h2
            · have := b1 p h1
              simp only [List.length_append, List.length_cons, List.length_nil] at this ⊢
              omega
            · exact b2 p h2

/-- Shape of a successful `tostrRec` run: concatenation of the shapes of
the fields, one label deeper than `parts`. -/
theorem tostrRec_shape (name : String) (fmt : PyNum → PyNum) :
    ∀ (fs : List (String × MetricValue)), (∀ kv ∈ fs, TostrShapeP name fmt kv.2) →
    ∀ (parts axes lines : List String),
      tostrRec name fmt parts fs axes = Except.ok lines →
      ∃ pairs : List (List String × String),
        lines = pairs.map (fun p => renderLine name p.1 p.2) ∧
        pairs.map (fun p => p.1.length) =
          (scalarDepthsRec fs).map (fun d => d + (parts.length + 1)) ∧
        ∀ p ∈ pairs, p.1.length ≤ parts.length + axes.length := by
  intro fs
  induction fs with
  | nil =>
    intro _ parts axes lines h
    simp only [tostrRec] at h
    obtain rfl : ([] : List String) = lines := by
      simpa using h
    exact ⟨[], by simp, by simp [scalarDepthsRec], by simp⟩
  | cons kv fs ih =>
    intro hP parts axes lines h
    obtain ⟨k, v⟩ := kv
    match axes with
    | [] => simp [tostrRec] at h
    | a :: rest =>
      simp only [tostrRec] at h
      cases hv : _tostr_inner name fmt (parts ++ [a ++ "=\"" ++ k ++ "\""]) v rest with
      | error e => rw [hv] at h; simp at h
      | ok first =>
        rw [hv] at h
        cases hrest : tostrRec name fmt parts fs (a :: rest) with
        | error e => rw [hrest] at h; simp at h
        | ok more =>
          rw [hrest] at h
          simp only [Except.ok.injEq] at h
          obtain ⟨p1, e1, d1, b1⟩ :=
            hP (k, v) (by simp) (parts ++ [a ++ "=\"" ++ k ++ "\""]) rest first hv
          obtain ⟨p2, e2, d2, b2⟩ :=
            ih (fun w hw => hP w (by simp [hw])) parts (a :: rest) more hrest
          refine ⟨p1 ++ p2, ?_, ?_, ?_⟩
          · rw [← h, e1, e2, List.map_append]
          · rw [List.map_append, d1, d2]
            simp only [scalarDepthsRec, List.map_append]
            congr 1
            · congr 1
              funext d
              simp
          · intro p hp
            rcases List.mem_append.mp hp with h1 | h2
            · have := b1 p h1
              simp only [List.length_append, List.length_cons, List.length_nil] at this ⊢
              omega
            · exact b2 p h2

/-- Every value satisfies the flattener shape property. -/
theorem tostr_inner_shape (name : String) (fmt : PyNum → PyNum) :
    ∀ val : MetricValue, TostrShapeP name fmt val := by
  suffices hsuff : ∀ (n : Nat) (val : MetricValue), sizeOf val ≤ n → TostrShapeP name fmt val by
    exact fun val => hsuff (sizeOf val) val le_rfl
  intro n
  induction n using Nat.strong_induction_on with
  | _ n ih =>
    intro val hle
    cases val with
    | scalar v =>
      intro parts axes lines h
      simp only [_tostr_inner] at h
      simp only [Except.ok.injEq] at h
      refine ⟨[(parts, PyNum.str (fmt v))], ?_, ?_, ?_⟩
      · rw [← h]; simp
      · simp [scalarDepths]
      · simp
    | seq items =>
      have hP : ∀ v ∈ items, TostrShapeP name fmt v := by
        intro v hv
        have h1 : sizeOf v < sizeOf (MetricValue.seq items) := by
          have h2 := List.sizeOf_lt_of_mem hv
          simp only [MetricValue.seq.sizeOf_spec]
          omega
        exact ih (sizeOf v) (lt_of_lt_of_le h1 hle) v le_rfl
      intro parts axes lines h
      simp only [_tostr_inner] at h
      obtain ⟨pairs, e1, e2, e3⟩ := tostrSeq_shape name fmt items hP 0 parts axes lines h
      refine ⟨pairs, e1, ?_, e3⟩
      rw [e2]
      simp only [scalarDepths, List.map_map]
      congr 1
      funext d
      simp [Function.comp]
      omega
    | record fs =>
      have hP : ∀ kv ∈ fs, TostrShapeP name fmt kv.2 := by
        intro kv hkv
        have h1 : sizeOf kv.2 < sizeOf (MetricValue.record fs) := by
          have h2 := List.sizeOf_lt_of_mem hkv
          have h3 : sizeOf kv.2 < sizeOf kv := by
            obtain ⟨k, v⟩ := kv
            simp [Prod.mk.sizeOf_spec]
          simp only [MetricValue.record.sizeOf_spec]
          omega
        exact ih (sizeOf kv.2) (lt_of_lt_of_le h1 hle) kv.2 le_rfl
      intro parts axes lines h
      simp only [_tostr_inner] at h
      obtain ⟨pairs, e1, e2, e3⟩ := tostrRec_shape name fmt fs hP parts axes lines h
      refine ⟨pairs, e1, ?_, e3⟩
      rw [e2]
      simp only [scalarDepths, List.map_map]
      congr 1
      funext d
      simp [Function.comp]
      omega

/-- C4: flattening a Scalar with zero axes yields exactly one line with
no label block (the bare `name value` form); and whenever flattening
succeeds, its lines are exactly the rendered forms of (label-set,
scalar) pairs whose label counts equal the nesting depth at which each
scalar was reached, never exceeding the number of declared axes. -/
theorem c4_scalar_and_label_depth (name : String) (fmt : PyNum → PyNum) :
    (∀ v : PyNum, _tostr (.scalar v) name [] fmt = .ok [name ++ " " ++ PyNum.str (fmt v)]) ∧
    ∀ (data : MetricValue) (axes lines : List String),
      _tostr data name axes fmt = Except.ok lines →
      ∃ pairs : List (List String × String),
        lines = pairs.map (fun p => renderLine name p.1 p.2) ∧
        pairs.map (fun p => p.1.length) = scalarDepths data ∧
        ∀ p ∈ pairs, p.1.length ≤ axes.length := by
  constructor
  · intro v
    simp [_tostr, _tostr_inner, renderLine]
  · intro data axes lines h
    obtain ⟨pairs, e1, e2, e3⟩ := tostr_inner_shape name fmt data [] axes lines h
    refine ⟨pairs, e1, ?_, by simpa using e3⟩
    rw [e2]
    simp

/-- C4 witness: the depth property instantiated at the concrete cpu
Record scenario, with the hypothesis discharged by evaluation. -/
theorem c4_witness :
    (_tostr (.record [("user", .scalar (.int 10)), ("system", .scalar (.int 5))])
        "cpu" ["type"] id =
      Except.ok ["cpu\x7btype=\"user\"\x7d 10", "cpu\x7btype=\"system\"\x7d 5"]) ∧
    ∃ pairs : List (List String × String),
      ["cpu\x7btype=\"user\"\x7d 10", "cpu\x7btype=\"system\"\x7d 5"] =
        pairs.map (fun p => renderLine "cpu" p.1 p.2) ∧
      pairs.map (fun p => p.1.length) =
        scalarDepths (.record [("user", .scalar (.int 10)), ("system", .scalar (.int 5))]) ∧
      ∀ p ∈ pairs, p.1.length ≤ (["type"] : List String).length := by
  have h : _tostr (.record [("user", .scalar (.int 10)), ("system", .scalar (.int 5))])
      "cpu" ["type"] id =
      Except.ok ["cpu\x7btype=\"user\"\x7d 10", "cpu\x7btype=\"system\"\x7d 5"] := by
    simp [_tostr, _tostr_inner, tostrRec, renderLine, PyNum.str]
    decide
  exact ⟨h, (c4_scalar_and_label_depth "cpu" id).2 _ ["type"] _ h⟩

end Prom
